import Mathlib

/-!
Shallow embedding of the session-lifecycle core of the
claude-code-sessions-manager repository.

The embedded code lives in:
  src/src/domain/models.py        (SessionStatus, Session)
  src/src/domain/exceptions.py    (exception kinds)
  src/src/infrastructure/storage.py (FileSessionStorage)
  src/src/services/session_manager.py (SessionManager)

Modelling conventions:
  * Python datetime values on the single machine clock are totally ordered;
    a datetime is modelled as the integer count of microseconds since the
    epoch, so the comparison operator on datetimes maps to integer comparison.
  * Every hidden read of datetime.now() becomes an explicit argument now.
    Each manager call is treated as instantaneous: the several now() reads
    inside one call see the same value.
  * Exceptions are modelled with Except over the kind of the raised
    exception class.
  * The external Claude CLI collaborator is modelled by the observable
    outcomes of the two calls the manager makes on it.
  * Each manager operation returns, besides its result, the ordered list of
    sessions passed to storage.save during the call, so that the number of
    persisted writes is itself a proved quantity.
-/

namespace SessionsManager

/-- Python datetime values, modelled as microseconds since the epoch. -/
abbrev Datetime := Int

/-- Embeds timedelta(hours=h): the length of h hours in microseconds. -/
def timedelta_hours (h : Int) : Int := h * 3600000000

/-- Embeds the SessionStatus enum of src/src/domain/models.py. -/
inductive SessionStatus where
  | ACTIVE
  | EXPIRED
deriving DecidableEq, Repr

/-- Embeds the frozen Session dataclass of src/src/domain/models.py. -/
structure Session where
  created_at : Datetime
  expires_at : Datetime
  status : SessionStatus
deriving DecidableEq, Repr

/-- Embeds Session.create_active: status is unconditionally ACTIVE. -/
def Session.create_active (created_at expires_at : Datetime) : Session :=
  { created_at := created_at, expires_at := expires_at,
    status := SessionStatus.ACTIVE }

/-- Embeds Session.from_data, with the datetime.now() read explicit:
status is ACTIVE when expires_at is strictly after now and EXPIRED otherwise. -/
def Session.from_data (created_at expires_at : Datetime) (now : Datetime) : Session :=
  { created_at := created_at, expires_at := expires_at,
    status := if expires_at > now then SessionStatus.ACTIVE
              else SessionStatus.EXPIRED }

/-- Embeds the Session.is_active property, with datetime.now() explicit. -/
def Session.is_active (s : Session) (now : Datetime) : Bool :=
  s.status == SessionStatus.ACTIVE && decide (s.expires_at > now)

/-- Embeds the Session.is_expired property: negation of is_active. -/
def Session.is_expired (s : Session) (now : Datetime) : Bool :=
  ! s.is_active now

/-- Embeds the exception kinds of src/src/domain/exceptions.py that the
session lifecycle raises. -/
inductive Err where
  | StorageError
  | SessionNotFoundError
  | SessionExpiredError
  | ClaudeClientError
deriving DecidableEq, Repr

/-- Models one string field of the persisted JSON object. Python guarantees
datetime.fromisoformat(d.isoformat()) == d, so the codec between datetimes and
ISO-8601 strings is modelled at the level of which datetime a string denotes:
iso t is the isoformat serialization of datetime t, statusLit is one of the two
status literals written by save, and unparsable stands for any other string,
which datetime.fromisoformat rejects with ValueError. -/
inductive JsonStr where
  | iso (t : Datetime)
  | statusLit (s : SessionStatus)
  | unparsable
deriving DecidableEq, Repr

/-- Embeds datetime.fromisoformat applied to a JSON string field: succeeds
exactly on ISO timestamp strings; any other string raises ValueError,
modelled as none. -/
def fromisoformat : JsonStr → Option Datetime
  | JsonStr.iso t => some t
  | _ => none

/-- State of the session file: absent, present but not valid JSON
(json.load raises JSONDecodeError), or a parsed JSON object of string
fields. -/
inductive FileState where
  | absent
  | corrupt
  | record (fields : List (String × JsonStr))
deriving DecidableEq, Repr

/-- Embeds FileSessionStorage.save (src/src/infrastructure/storage.py):
opens the file in "w" mode, truncating any prior content, and writes the JSON
object with the two timestamps in ISO form and the status literal. The OSError
branch models a host I/O fault outside the program logic and is not
represented. -/
def FileSessionStorage.save (session : Session) : FileState :=
  FileState.record
    [("created_at", JsonStr.iso session.created_at),
     ("expires_at", JsonStr.iso session.expires_at),
     ("status", JsonStr.statusLit session.status)]

/-- Embeds FileSessionStorage.load, with the datetime.now() read inside
Session.from_data explicit. An absent file returns none; JSONDecodeError,
KeyError and ValueError are caught and re-raised as StorageError, matching the
except clause of the source. -/
def FileSessionStorage.load (fs : FileState) (now : Datetime) :
    Except Err (Option Session) :=
  match fs with
  | FileState.absent => Except.ok none
  | FileState.corrupt => Except.error Err.StorageError
  | FileState.record fields =>
    match fields.lookup "created_at" with
    | none => Except.error Err.StorageError
    | some cv =>
      match fromisoformat cv with
      | none => Except.error Err.StorageError
      | some created_at =>
        match fields.lookup "expires_at" with
        | none => Except.error Err.StorageError
        | some ev =>
          match fromisoformat ev with
          | none => Except.error Err.StorageError
          | some expires_at =>
            Except.ok (some (Session.from_data created_at expires_at now))

/-- The Settings fields read by the session manager
(src/src/config/settings.py). -/
structure Settings where
  session_duration_hours : Int
deriving DecidableEq, Repr

/-- Models the external Claude CLI collaborator by the outcomes of the two
calls activate_session makes on it: whether test_connection returns true, and
whether send_message "Hello, Claude!" succeeds (it raises ClaudeClientError
when it does not). -/
structure ClaudeBehavior where
  test_connection : Bool
  send_ok : Bool
deriving DecidableEq, Repr

/-- Ordered trace of the sessions passed to storage.save during one call. -/
abbrev Writes := List Session

/-- The file state after replaying a trace of save calls. -/
def runWrites (fs : FileState) (ws : Writes) : FileState :=
  ws.foldl (fun _ s => FileSessionStorage.save s) fs

/-- Embeds SessionManager.activate_session: probe the CLI, send the handshake
message, and only on success construct a session with create_active and save
it. On either failure a ClaudeClientError is raised before any session is
constructed. -/
def SessionManager.activate_session (cb : ClaudeBehavior) (settings : Settings)
    (now : Datetime) : Except Err Session × Writes :=
  if !cb.test_connection then
    (Except.error Err.ClaudeClientError, [])
  else if !cb.send_ok then
    (Except.error Err.ClaudeClientError, [])
  else
    let created_at := now
    let expires_at := created_at + timedelta_hours settings.session_duration_hours
    let session := Session.create_active created_at expires_at
    (Except.ok session, [session])

/-- Embeds SessionManager.get_current_session: delegates to storage.load,
propagating StorageError. -/
def SessionManager.get_current_session (fs : FileState) (now : Datetime) :
    Except Err (Option Session) :=
  FileSessionStorage.load fs now

/-- Embeds SessionManager.get_session_info: load, raise SessionNotFoundError
when absent, otherwise re-derive the session with from_data and write it
back. -/
def SessionManager.get_session_info (fs : FileState) (now : Datetime) :
    Except Err Session × Writes :=
  match SessionManager.get_current_session fs now with
  | Except.error e => (Except.error e, [])
  | Except.ok none => (Except.error Err.SessionNotFoundError, [])
  | Except.ok (some session) =>
    let updated := Session.from_data session.created_at session.expires_at now
    (Except.ok updated, [updated])

/-- Embeds SessionManager.is_session_active: load and report the loaded
session's is_active, absent meaning false; no write. -/
def SessionManager.is_session_active (fs : FileState) (now : Datetime) :
    Except Err Bool × Writes :=
  match SessionManager.get_current_session fs now with
  | Except.error e => (Except.error e, [])
  | Except.ok none => (Except.ok false, [])
  | Except.ok (some session) => (Except.ok (session.is_active now), [])

/-- Embeds SessionManager.refresh_session: load, raise SessionNotFoundError
when absent, raise SessionExpiredError when the loaded session is expired,
otherwise extend the expiry from now and save the refreshed session. -/
def SessionManager.refresh_session (settings : Settings) (fs : FileState)
    (now : Datetime) : Except Err Session × Writes :=
  match SessionManager.get_current_session fs now with
  | Except.error e => (Except.error e, [])
  | Except.ok none => (Except.error Err.SessionNotFoundError, [])
  | Except.ok (some current_session) =>
    if current_session.is_expired now then
      (Except.error Err.SessionExpiredError, [])
    else
      let new_expires_at := now + timedelta_hours settings.session_duration_hours
      let refreshed_session :=
        Session.create_active current_session.created_at new_expires_at
      (Except.ok refreshed_session, [refreshed_session])

/-- C1: Session.from_data yields status ACTIVE exactly when expires_at is
strictly greater than the current time, EXPIRED otherwise; in particular a
session whose expires_at equals now is EXPIRED. -/
theorem from_data_status_spec (created_at expires_at now : Datetime) :
    ((Session.from_data created_at expires_at now).status = SessionStatus.ACTIVE ↔
      expires_at > now) ∧
    ((Session.from_data created_at expires_at now).status = SessionStatus.EXPIRED ↔
      ¬ expires_at > now) ∧
    (Session.from_data created_at now now).status = SessionStatus.EXPIRED := by
  unfold Session.from_data
  refine ⟨?_, ?_, ?_⟩
  · split <;> simp_all
  · split <;> simp_all
  · simp

/-- C3: Session.is_active is true exactly when the stored status is ACTIVE and
expires_at is strictly greater than the current time, and Session.is_expired
is its boolean negation. -/
theorem is_active_spec (s : Session) (now : Datetime) :
    (s.is_active now = true ↔
      (s.status = SessionStatus.ACTIVE ∧ s.expires_at > now)) ∧
    s.is_expired now = ! s.is_active now := by
  constructor
  · simp [Session.is_active]
  · rfl

/-- C5: Session.create_active returns a session with status ACTIVE for every
pair of timestamps, keeping both timestamps as supplied and performing no
validation of their ordering. -/
theorem create_active_spec (created_at expires_at : Datetime) :
    (Session.create_active created_at expires_at).status = SessionStatus.ACTIVE ∧
    (Session.create_active created_at expires_at).created_at = created_at ∧
    (Session.create_active created_at expires_at).expires_at = expires_at :=
  ⟨rfl, rfl, rfl⟩

/-- C9: a session whose status field is EXPIRED is reported inactive by
is_active at every current time, even when expires_at lies in the future. -/
theorem expired_status_never_active (s : Session)
    (h : s.status = SessionStatus.EXPIRED) (now : Datetime) :
    s.is_active now = false := by
  simp [Session.is_active, h]

/-- Witness for C9 at a session marked EXPIRED whose expiry lies in the
future of the current time. -/
theorem expired_status_never_active_witness :
    (Session.mk 0 100 SessionStatus.EXPIRED).is_active 0 = false :=
  expired_status_never_active (Session.mk 0 100 SessionStatus.EXPIRED) rfl 0

/-- C2: activate_session performs exactly one save on success and none on
either failure branch: a failed probe or a failed handshake yields a
ClaudeClientError with an empty write trace, leaving storage unchanged, while
success saves exactly the one freshly created active session. -/
theorem activate_session_effects (cb : ClaudeBehavior) (settings : Settings)
    (now : Datetime) (fs : FileState) :
    ((cb.test_connection = false ∨ cb.send_ok = false) →
      (SessionManager.activate_session cb settings now).1 =
        Except.error Err.ClaudeClientError ∧
      (SessionManager.activate_session cb settings now).2 = [] ∧
      runWrites fs (SessionManager.activate_session cb settings now).2 = fs) ∧
    (cb.test_connection = true → cb.send_ok = true →
      SessionManager.activate_session cb settings now =
        (Except.ok (Session.create_active now
            (now + timedelta_hours settings.session_duration_hours)),
         [Session.create_active now
            (now + timedelta_hours settings.session_duration_hours)])) := by
  obtain ⟨tc, so⟩ := cb
  cases tc <;> cases so <;>
    simp [SessionManager.activate_session, runWrites]

/-- Witness for C2 at a collaborator whose reachability probe fails: the
result is a ClaudeClientError, the write trace is empty, and storage is
unchanged. -/
theorem activate_session_effects_witness :
    (SessionManager.activate_session ⟨false, true⟩ ⟨5⟩ 0).1 =
      Except.error Err.ClaudeClientError ∧
    (SessionManager.activate_session ⟨false, true⟩ ⟨5⟩ 0).2 = [] ∧
    runWrites FileState.absent
      (SessionManager.activate_session ⟨false, true⟩ ⟨5⟩ 0).2 =
      FileState.absent :=
  (activate_session_effects ⟨false, true⟩ ⟨5⟩ 0 FileState.absent).1 (Or.inl rfl)

/-- C4: FileSessionStorage.load returns none for an absent file, and raises
StorageError, rather than returning none, for malformed JSON, for a missing
created_at or expires_at field, and for a timestamp field whose string does
not parse. -/
theorem load_error_spec (now : Datetime) :
    FileSessionStorage.load FileState.absent now = Except.ok none ∧
    FileSessionStorage.load FileState.corrupt now =
      Except.error Err.StorageError ∧
    (∀ fields : List (String × JsonStr),
      fields.lookup "created_at" = none →
        FileSessionStorage.load (FileState.record fields) now =
          Except.error Err.StorageError) ∧
    (∀ fields : List (String × JsonStr),
      fields.lookup "expires_at" = none →
        FileSessionStorage.load (FileState.record fields) now =
          Except.error Err.StorageError) ∧
    (∀ fields : List (String × JsonStr), ∀ v,
      fields.lookup "created_at" = some v → fromisoformat v = none →
        FileSessionStorage.load (FileState.record fields) now =
          Except.error Err.StorageError) ∧
    (∀ fields : List (String × JsonStr), ∀ v,
      fields.lookup "expires_at" = some v → fromisoformat v = none →
        FileSessionStorage.load (FileState.record fields) now =
          Except.error Err.StorageError) := by
  refine ⟨rfl, rfl, ?_, ?_, ?_, ?_⟩
  · intro fields hc
    simp [FileSessionStorage.load, hc]
  · intro fields he
    cases hc : fields.lookup "created_at" with
    | none => simp [FileSessionStorage.load, hc]
    | some cv =>
      cases hi : fromisoformat cv with
      | none => simp [FileSessionStorage.load, hc, hi]
      | some c => simp [FileSessionStorage.load, hc, hi, he]
  · intro fields v hc hv
    simp [FileSessionStorage.load, hc, hv]
  · intro fields v he hv
    cases hc : fields.lookup "created_at" with
    | none => simp [FileSessionStorage.load, hc]
    | some cv =>
      cases hi : fromisoformat cv with
      | none => simp [FileSessionStorage.load, hc, hi]
      | some c => simp [FileSessionStorage.load, hc, hi, he, hv]

/-- Witness for C4 at a record whose created_at field holds an unparsable
string. -/
theorem load_error_spec_witness :
    FileSessionStorage.load
      (FileState.record [("created_at", JsonStr.unparsable)]) 0 =
      Except.error Err.StorageError :=
  (load_error_spec 0).2.2.2.2.1 [("created_at", JsonStr.unparsable)]
    JsonStr.unparsable rfl rfl

/-- C6: refresh_session on a loaded session that is expired fails with
SessionExpiredError and writes nothing, leaving the stored record unchanged;
on a loaded session that is not expired it succeeds, producing and saving
exactly one session built by create_active from the same created_at and a new
expiry of now plus the configured duration, hence with status ACTIVE. -/
theorem refresh_session_spec (settings : Settings) (fs : FileState)
    (now : Datetime) (current : Session)
    (hload : SessionManager.get_current_session fs now = Except.ok (some current)) :
    (current.is_expired now = true →
      SessionManager.refresh_session settings fs now =
        (Except.error Err.SessionExpiredError, []) ∧
      runWrites fs (SessionManager.refresh_session settings fs now).2 = fs) ∧
    (current.is_expired now = false →
      SessionManager.refresh_session settings fs now =
        (Except.ok (Session.create_active current.created_at
            (now + timedelta_hours settings.session_duration_hours)),
         [Session.create_active current.created_at
            (now + timedelta_hours settings.session_duration_hours)]) ∧
      (Session.create_active current.created_at
          (now + timedelta_hours settings.session_duration_hours)).status =
        SessionStatus.ACTIVE) := by
  constructor
  · intro hexp
    unfold SessionManager.refresh_session
    rw [hload]
    simp [hexp, runWrites]
  · intro hexp
    unfold SessionManager.refresh_session
    rw [hload]
    simp [hexp, Session.create_active]

/-- Witness for C6: refreshing a stored session loaded as expired fails with
SessionExpiredError, writes nothing and leaves the file unchanged. -/
theorem refresh_session_spec_witness :
    SessionManager.refresh_session ⟨5⟩
      (FileSessionStorage.save ⟨0, 10, SessionStatus.ACTIVE⟩) 20 =
      (Except.error Err.SessionExpiredError, []) ∧
    runWrites (FileSessionStorage.save ⟨0, 10, SessionStatus.ACTIVE⟩)
      (SessionManager.refresh_session ⟨5⟩
        (FileSessionStorage.save ⟨0, 10, SessionStatus.ACTIVE⟩) 20).2 =
      FileSessionStorage.save ⟨0, 10, SessionStatus.ACTIVE⟩ :=
  (refresh_session_spec ⟨5⟩ (FileSessionStorage.save ⟨0, 10, SessionStatus.ACTIVE⟩)
    20 ⟨0, 10, SessionStatus.EXPIRED⟩ rfl).1 rfl

/-- C7: saving any session and loading it back succeeds and preserves both
timestamps exactly; the loaded status is re-derived by from_data at the load
time, so it may differ from the saved status. -/
theorem save_load_round_trip (s : Session) (now : Datetime) :
    FileSessionStorage.load (FileSessionStorage.save s) now =
      Except.ok (some (Session.from_data s.created_at s.expires_at now)) ∧
    (∀ s', FileSessionStorage.load (FileSessionStorage.save s) now =
        Except.ok (some s') →
      s'.created_at = s.created_at ∧ s'.expires_at = s.expires_at) := by
  constructor
  · rfl
  · intro s' h
    have hs : some s' = some (Session.from_data s.created_at s.expires_at now) := by
      have h0 : FileSessionStorage.load (FileSessionStorage.save s) now =
          Except.ok (some (Session.from_data s.created_at s.expires_at now)) := rfl
      have := h0 ▸ h
      exact Except.ok.inj this.symm
    have hs' : s' = Session.from_data s.created_at s.expires_at now :=
      Option.some.inj hs
    subst hs'
    exact ⟨rfl, rfl⟩

/-- Witness for C7 at a concrete session and load time: the loaded session
keeps both timestamps. -/
theorem save_load_round_trip_witness :
    (Session.from_data 0 10 3).created_at = 0 ∧
    (Session.from_data 0 10 3).expires_at = 10 :=
  (save_load_round_trip ⟨0, 10, SessionStatus.ACTIVE⟩ 3).2
    (Session.from_data 0 10 3)
    (save_load_round_trip ⟨0, 10, SessionStatus.ACTIVE⟩ 3).1

/-- C8: is_session_active never writes (its write trace is empty in every
case, so the stored record is unchanged), returns false when storage holds no
record, returns the loaded session's is_active otherwise, while
get_session_info on a present record does write back the re-derived
session. -/
theorem is_session_active_spec (fs : FileState) (now : Datetime) :
    (SessionManager.is_session_active fs now).2 = [] ∧
    runWrites fs (SessionManager.is_session_active fs now).2 = fs ∧
    (SessionManager.get_current_session fs now = Except.ok none →
      (SessionManager.is_session_active fs now).1 = Except.ok false) ∧
    (∀ s, SessionManager.get_current_session fs now = Except.ok (some s) →
      (SessionManager.is_session_active fs now).1 =
        Except.ok (s.is_active now)) ∧
    (∀ s, SessionManager.get_current_session fs now = Except.ok (some s) →
      (SessionManager.get_session_info fs now).2 =
        [Session.from_data s.created_at s.expires_at now]) := by
  refine ⟨?_, ?_, ?_, ?_, ?_⟩
  · unfold SessionManager.is_session_active
    cases h : SessionManager.get_current_session fs now with
    | error e => simp
    | ok o => cases o <;> simp
  · unfold SessionManager.is_session_active
    cases h : SessionManager.get_current_session fs now with
    | error e => simp [runWrites]
    | ok o => cases o <;> simp [runWrites]
  · intro h
    unfold SessionManager.is_session_active
    rw [h]
  · intro s h
    unfold SessionManager.is_session_active
    rw [h]
  · intro s h
    unfold SessionManager.get_session_info
    rw [h]

/-- Witness for C8 at empty storage: no record yields false. -/
theorem is_session_active_spec_witness :
    (SessionManager.is_session_active FileState.absent 0).1 = Except.ok false :=
  (is_session_active_spec FileState.absent 0).2.2.1 rfl

/-- C10: refresh_session when storage holds no record fails with
SessionNotFoundError, a kind distinct from SessionExpiredError, before any
expiry test, and writes nothing, leaving storage unchanged. -/
theorem refresh_session_not_found (settings : Settings) (fs : FileState)
    (now : Datetime)
    (hload : SessionManager.get_current_session fs now = Except.ok none) :
    SessionManager.refresh_session settings fs now =
      (Except.error Err.SessionNotFoundError, []) ∧
    runWrites fs (SessionManager.refresh_session settings fs now).2 = fs ∧
    Err.SessionNotFoundError ≠ Err.SessionExpiredError := by
  unfold SessionManager.refresh_session
  rw [hload]
  simp [runWrites]

/-- Witness for C10 at an absent session file. -/
theorem refresh_session_not_found_witness :
    SessionManager.refresh_session ⟨5⟩ FileState.absent 0 =
      (Except.error Err.SessionNotFoundError, []) ∧
    runWrites FileState.absent
      (SessionManager.refresh_session ⟨5⟩ FileState.absent 0).2 =
      FileState.absent ∧
    Err.SessionNotFoundError ≠ Err.SessionExpiredError :=
  refresh_session_not_found ⟨5⟩ FileState.absent 0 rfl

end SessionsManager
